import Mathlib

/-!
# Verification of MulticastLibrary

A shallow embedding of `src/MulticastLibrary/MulticastLibrary.py` and proofs
about its operations: the time-bounded multicast send loop, the
timeout-bounded receive loop, socket creation, the message assertion
helpers, the ping wrapper and the frame counter.

Timing model: sends, checks and socket calls take zero time and
`time.sleep interval` advances the clock by exactly `interval` seconds
(times are rationals).  External effects (datagram arrival, probe results,
filesystem state) are passed in as explicit parameters, and Python
exceptions are modelled with `Except`.
-/

namespace MulticastLibrary

/-! ## Sender

`Send_Multicast_Message` spawns `send_loop` on a worker thread and
immediately joins it, so from the caller's point of view it is the
synchronous execution of `send_loop`.  The loop body is

    while not MulticastLibrary.stop_sending.is_set():
        if time.time() - start_time > duration:
            break
        encoded_message = message.encode()
        send_sock.sendto(encoded_message, (multicast_group, port))
        time.sleep(interval)

We model it with the clock `t` starting at `0` (so `t` is
`time.time() - start_time`), the shared stop flag as a function from the
check index to its value at that check, and an explicit fuel bound on the
number of iterations (the theorems require the fuel to be large enough
that it is never the reason the loop stops).  The result is the list of
transmitted datagram payloads, in order, paired with the clock value at
which the loop exits (= the earliest time the call can return). -/

def send_loop (stop : ℕ → Bool) (message : String) (interval duration : ℚ) :
    ℕ → ℕ → ℚ → List String × ℚ
  | 0, _, t => ([], t)
  | fuel + 1, k, t =>
    if stop k then ([], t)
    else if duration < t then ([], t)
    else
      let r := send_loop stop message interval duration fuel (k + 1) (t + interval)
      (message :: r.1, r.2)

def Send_Multicast_Message (stop : ℕ → Bool) (message : String)
    (interval duration : ℚ) (fuel : ℕ) : List String × ℚ :=
  send_loop stop message interval duration fuel 0 0

/-! ## Receiver

`Receive_Multicast_Message(recv_sock, timeout)` first calls
`recv_sock.settimeout(timeout)`, then loops on
`data, _ = recv_sock.recvfrom(1024)` appending `data.decode()` to
`received_messages`; the `try` around the loop catches exactly
`socket.timeout` and returns `received_messages`; any other exception
propagates.  With a timeout set, each `recvfrom` call either returns a
datagram, raises `socket.timeout`, or raises some other error; we pass the
sequence of these outcomes in as an explicit event list (an empty list
models a receive that never returns, hence the `Option` result).
`recvfrom(1024)` delivers at most the first 1024 bytes of a datagram's
payload (the rest of a longer UDP datagram is discarded), and `decode` —
the payload-bytes-to-text decoding — is an explicit parameter. -/

inductive RecvEvent where
  | datagram (payload : List ℕ)
  | timeout
  | failure (e : String)
  deriving DecidableEq, Repr

structure RecvSocket where
  timeoutOption : Option ℚ
  deriving DecidableEq, Repr

def recv_loop (decode : List ℕ → String) :
    List RecvEvent → List String → Option (Except String (List String))
  | [], _ => none
  | RecvEvent.datagram payload :: events, received_messages =>
      recv_loop decode events (received_messages ++ [decode (payload.take 1024)])
  | RecvEvent.timeout :: _, received_messages => some (Except.ok received_messages)
  | RecvEvent.failure e :: _, _ => some (Except.error e)

def Receive_Multicast_Message (recv_sock : RecvSocket) (timeout : ℚ)
    (decode : List ℕ → String) (events : List RecvEvent) :
    RecvSocket × Option (Except String (List String)) :=
  ({ recv_sock with timeoutOption := some timeout }, recv_loop decode events [])

/-! ## Socket factory (send side)

`Create_Send_Socket(ttl)` packs the ttl with `struct.pack('b', ttl)` — the
*signed* byte format, which raises `struct.error` unless
`-128 <= ttl <= 127` — and only then sets `IP_MULTICAST_TTL` to the packed
byte. -/

def struct_pack_signed_byte (v : ℤ) : Except String (List ℤ) :=
  if -128 ≤ v ∧ v ≤ 127 then Except.ok [v]
  else Except.error "byte format requires -128 <= number <= 127"

structure SendSocket where
  ttlOption : Option (List ℤ)
  deriving DecidableEq, Repr

def Create_Send_Socket (ttl : ℤ) : Except String SendSocket :=
  match struct_pack_signed_byte ttl with
  | Except.error e => Except.error e
  | Except.ok ttl_bytes => Except.ok { ttlOption := some ttl_bytes }

/-! ## Assertion helpers -/

def Should_Messages_Be_Equal (sent_msg : String) (recv_msg : List String) :
    Except String Unit :=
  if sent_msg ∉ recv_msg then
    Except.error ("'" ++ sent_msg ++ "' is not found in the received message")
  else Except.ok ()

def Should_Messages_Not_Be_Equal (sent_msg : String) (recv_msg : List String) :
    Except String Unit :=
  if sent_msg ∈ recv_msg then
    Except.error ("'" ++ sent_msg ++ "' is found in the received message")
  else Except.ok ()

/-! ## Ping

`ping(remote_host)` first requires `remote_host.count(".") == 3`; then it
calls `ping3.ping(remote_host, timeout=1)` inside a `try`.  A truthy result
returns `True`, a falsy one `False`; `TypeError` and `OSError` are caught
and return `False`; a `NameError` is caught and returns the *string*
`f"module {e}"`.  The probe's behaviour is an explicit parameter. -/

inductive ProbeOutcome where
  | value (truthy : Bool)
  | typeError
  | osError
  | nameError (e : String)
  deriving DecidableEq, Repr

inductive PingResult where
  | bool (b : Bool)
  | str (s : String)
  deriving DecidableEq, Repr

def PingResult.isBool : PingResult → Bool
  | PingResult.bool _ => true
  | PingResult.str _ => false

def ping (remote_host : String) (probe : ProbeOutcome) : PingResult :=
  if remote_host.data.count (Char.ofNat 46) = 3 then
    match probe with
    | ProbeOutcome.value truthy => if truthy then PingResult.bool true else PingResult.bool false
    | ProbeOutcome.typeError => PingResult.bool false
    | ProbeOutcome.osError => PingResult.bool false
    | ProbeOutcome.nameError e => PingResult.str ("module " ++ e)
  else PingResult.bool false

/-! ## Frame counting

`Get_Frame_count(video_file)` checks `os.path.exists(video_file)`; if the
file exists it counts the frames `cv2` can read.  If it does not exist the
source executes `raise FileNotFoundError(f"{file} file does not exist!")`:
Python evaluates the f-string first, and the name `file` is unbound in
that scope (the parameter is `video_file`; `file` is not a Python 3
builtin), so the statement raises `NameError("name 'file' is not
defined")` before any `FileNotFoundError` is constructed.  The decodable
frames of the video are passed in as a list. -/

inductive PyExc where
  | fileNotFound (msg : String)
  | nameError (unboundName : String)
  deriving DecidableEq, Repr

def count_frames : ℕ → List Unit → ℕ
  | frame_count, [] => frame_count
  | frame_count, _ :: frames => count_frames (frame_count + 1) frames

def Get_Frame_count (video_file_exists : Bool) (frames : List Unit) :
    Except PyExc ℕ :=
  if video_file_exists then Except.ok (count_frames 0 frames)
  else Except.error (PyExc.nameError "file")

end MulticastLibrary

namespace MulticastLibrary

/-! ## Helper lemmas -/

/-- The send loop exits with no transmission as soon as a check observes
the stop flag set, whatever the clock and fuel are. -/
theorem send_loop_stopped (stop : ℕ → Bool) (message : String)
    (interval duration : ℚ) (fuel k : ℕ) (t : ℚ) (h : stop k = true) :
    send_loop stop message interval duration fuel k t = ([], t) := by
  cases fuel with
  | zero => rfl
  | succ f => simp [send_loop, h]

/-- Closed form of the send loop when the stop flag is never set: with
enough fuel and `t ≤ duration`, it performs exactly
`⌊(duration - t)/interval⌋ + 1` transmissions and exits at clock
`t + (⌊(duration - t)/interval⌋ + 1) * interval`. -/
theorem send_loop_never_stopped_closed (message : String)
    (interval duration : ℚ) (hi : 0 < interval) :
    ∀ (fuel k : ℕ) (t : ℚ), t ≤ duration →
      ⌊(duration - t) / interval⌋.toNat + 2 ≤ fuel →
      send_loop (fun _ => false) message interval duration fuel k t =
        (List.replicate (⌊(duration - t) / interval⌋.toNat + 1) message,
          t + (⌊(duration - t) / interval⌋.toNat + 1) * interval) := by
  intro fuel
  induction fuel with
  | zero => intro k t ht hfuel; omega
  | succ f ih =>
    intro k t ht hfuel
    have hd0 : (0:ℚ) ≤ (duration - t) / interval :=
      div_nonneg (sub_nonneg.mpr ht) hi.le
    have hfl0 : 0 ≤ ⌊(duration - t) / interval⌋ := Int.floor_nonneg.mpr hd0
    by_cases hnext : t + interval ≤ duration
    · have hdiv : (duration - (t + interval)) / interval
          = (duration - t) / interval - 1 := by
        field_simp
        ring
      have hfl : ⌊(duration - (t + interval)) / interval⌋
          = ⌊(duration - t) / interval⌋ - 1 := by
        have h1 := Int.floor_sub_int ((duration - t) / interval) 1
        rw [hdiv]
        exact_mod_cast h1
      have hone : 1 ≤ ⌊(duration - t) / interval⌋ := by
        apply Int.le_floor.mpr
        push_cast
        rw [le_div_iff₀ hi]
        linarith
      have hrec := ih (k + 1) (t + interval) hnext (by omega)
      have hsucc : ⌊(duration - (t + interval)) / interval⌋.toNat + 1
          = ⌊(duration - t) / interval⌋.toNat := by
        omega
      simp only [send_loop, if_neg (not_lt.mpr ht), Bool.false_eq_true,
        if_false, hrec]
      refine Prod.ext ?_ ?_
      · simp only [← hsucc, List.replicate_succ]
      · simp only [← hsucc]
        push_cast
        ring
    · have hlt2 : duration < t + interval := not_le.mp hnext
      have hflz : ⌊(duration - t) / interval⌋ = 0 := by
        have h2 : ⌊(duration - t) / interval⌋ < 1 := by
          apply Int.floor_lt.mpr
          push_cast
          rw [div_lt_one hi]
          linarith
        omega
      have hfz : ⌊(duration - t) / interval⌋.toNat = 0 := by omega
      obtain ⟨g, rfl⟩ : ∃ g, f = g + 1 := ⟨f - 1, by omega⟩
      simp only [send_loop, if_neg (not_lt.mpr ht), if_pos hlt2,
        Bool.false_eq_true, if_false, hfz]
      refine Prod.ext ?_ ?_
      · simp
      · push_cast
        ring

/-- Processing a run of datagram events appends their decoded (truncated)
payloads, in order, to the accumulator. -/
theorem recv_loop_datagrams (decode : List ℕ → String)
    (datagrams : List (List ℕ)) :
    ∀ (rest : List RecvEvent) (acc : List String),
      recv_loop decode (datagrams.map RecvEvent.datagram ++ rest) acc =
        recv_loop decode rest
          (acc ++ datagrams.map (fun d => decode (d.take 1024))) := by
  induction datagrams with
  | nil => intro rest acc; simp
  | cons d ds ih =>
    intro rest acc
    simp [recv_loop, ih]

/-! ## Claims about the sender and receiver -/

/-- C1: with the stop flag never set, `0 < interval` and
`2 * interval ≤ duration`, the sender transmits at least
`⌊duration / interval⌋` datagrams before returning, and the loop exits no
earlier than `duration` seconds after it starts (the fuel hypothesis only
asks for enough iterations to cover the duration). -/
theorem sender_floor_count_and_min_duration (message : String)
    (interval duration : ℚ) (fuel : ℕ) (hi : 0 < interval)
    (hd : 2 * interval ≤ duration)
    (hfuel : duration + 2 * interval ≤ (fuel : ℚ) * interval) :
    ⌊duration / interval⌋ ≤
      ((Send_Multicast_Message (fun _ => false) message interval duration fuel).1.length : ℤ) ∧
    duration ≤ (Send_Multicast_Message (fun _ => false) message interval duration fuel).2 := by
  have hdur0 : (0:ℚ) ≤ duration := by linarith
  have hflnonneg : 0 ≤ ⌊duration / interval⌋ :=
    Int.floor_nonneg.mpr (div_nonneg hdur0 hi.le)
  have hNcast : ((⌊duration / interval⌋.toNat : ℤ)) = ⌊duration / interval⌋ :=
    Int.toNat_of_nonneg hflnonneg
  have hfuelN : ⌊(duration - 0) / interval⌋.toNat + 2 ≤ fuel := by
    have h2 : duration / interval ≤ (fuel : ℚ) - 2 := by
      rw [div_le_iff₀ hi]
      nlinarith [hfuel]
    have h3 : ((⌊duration / interval⌋ : ℚ)) ≤ duration / interval :=
      Int.floor_le _
    have h4 : ((⌊duration / interval⌋.toNat : ℚ)) + 2 ≤ (fuel : ℚ) := by
      have h5 : ((⌊duration / interval⌋.toNat : ℚ))
          = ((⌊duration / interval⌋ : ℤ) : ℚ) := by
        exact_mod_cast congrArg (fun z => ((z : ℤ) : ℚ)) hNcast
      rw [h5]
      linarith
    have h6 : ⌊duration / interval⌋.toNat + 2 ≤ fuel := by exact_mod_cast h4
    simpa [sub_zero] using h6
  have hmain := send_loop_never_stopped_closed message interval duration hi
    fuel 0 0 hdur0 hfuelN
  rw [Send_Multicast_Message] at *
  rw [hmain]
  constructor
  · simp only [List.length_replicate, sub_zero]
    omega
  · have hlt : duration / interval < ((⌊duration / interval⌋.toNat : ℚ)) + 1 := by
      have h7 := Int.lt_floor_add_one (duration / interval)
      have h8 : ((⌊duration / interval⌋.toNat : ℚ))
          = ((⌊duration / interval⌋ : ℤ) : ℚ) := by
        exact_mod_cast congrArg (fun z => ((z : ℤ) : ℚ)) hNcast
      rw [h8]
      exact_mod_cast h7
    have h9 : duration < (((⌊duration / interval⌋.toNat : ℚ)) + 1) * interval := by
      rw [← div_lt_iff₀ hi]
      exact hlt
    simp only [sub_zero]
    push_cast at h9 ⊢
    linarith

/-- Witness for C1: at `interval = 1`, `duration = 5`, `fuel = 7` the
sender sends at least `⌊5/1⌋ = 5` datagrams and exits no earlier than 5. -/
theorem sender_floor_count_and_min_duration_witness :
    (0:ℚ) < 1 ∧ (2:ℚ) * 1 ≤ 5 ∧ (5:ℚ) + 2 * 1 ≤ ((7:ℕ) : ℚ) * 1 ∧
    (⌊(5:ℚ) / 1⌋ ≤
        ((Send_Multicast_Message (fun _ => false) "hello" 1 5 7).1.length : ℤ) ∧
      (5:ℚ) ≤ (Send_Multicast_Message (fun _ => false) "hello" 1 5 7).2) :=
  ⟨by norm_num, by norm_num, by norm_num,
    sender_floor_count_and_min_duration "hello" 1 5 7 (by norm_num)
      (by norm_num) (by norm_num)⟩

/-- C2: if the shared stop flag is already set when
`Send_Multicast_Message` is called, the flag check at the top of the
first iteration — which precedes the duration check and the send — exits
the loop at once: zero datagrams are transmitted and the clock has not
advanced. -/
theorem sender_zero_sends_when_stopped_at_entry (stop : ℕ → Bool)
    (message : String) (interval duration : ℚ) (fuel : ℕ)
    (h : stop 0 = true) :
    Send_Multicast_Message stop message interval duration fuel = ([], 0) :=
  send_loop_stopped stop message interval duration fuel 0 0 h

/-- Witness for C2: with the flag set at entry, a call that would
otherwise send for 5 seconds transmits nothing. -/
theorem sender_zero_sends_when_stopped_at_entry_witness :
    ((fun _ : ℕ => true) 0 = true) ∧
    Send_Multicast_Message (fun _ => true) "hello" 1 5 10 = ([], 0) :=
  ⟨rfl, sender_zero_sends_when_stopped_at_entry (fun _ => true) "hello" 1 5 10 rfl⟩

/-- C3: `Receive_Multicast_Message` sets the receive timeout on the
socket; a timeout raised by the receive call ends the loop normally and
the accumulated list (possibly empty) is returned, while any other
receive-level failure propagates to the caller with no messages
returned. -/
theorem receive_timeout_ends_loop_and_failures_propagate
    (recv_sock : RecvSocket) (timeout : ℚ) (decode : List ℕ → String)
    (datagrams : List (List ℕ)) (rest : List RecvEvent) (e : String) :
    ((Receive_Multicast_Message recv_sock timeout decode
        (datagrams.map RecvEvent.datagram ++ RecvEvent.timeout :: rest)).1.timeoutOption
          = some timeout ∧
      (Receive_Multicast_Message recv_sock timeout decode
        (datagrams.map RecvEvent.datagram ++ RecvEvent.timeout :: rest)).2
          = some (Except.ok (datagrams.map (fun d => decode (d.take 1024))))) ∧
    (Receive_Multicast_Message recv_sock timeout decode
        (datagrams.map RecvEvent.datagram ++ RecvEvent.failure e :: rest)).2
          = some (Except.error e) := by
  refine ⟨⟨rfl, ?_⟩, ?_⟩
  · simp [Receive_Multicast_Message, recv_loop_datagrams, recv_loop]
  · simp [Receive_Multicast_Message, recv_loop_datagrams, recv_loop]

/-- C4: the list returned by one `Receive_Multicast_Message` invocation
has exactly one decoded entry per received datagram, at the same index as
the datagram's arrival position — so entries appear in arrival order and
duplicate payloads are retained as separate entries. -/
theorem receive_appends_in_arrival_order (recv_sock : RecvSocket)
    (timeout : ℚ) (decode : List ℕ → String) (datagrams : List (List ℕ))
    (rest : List RecvEvent) :
    ∃ out, (Receive_Multicast_Message recv_sock timeout decode
        (datagrams.map RecvEvent.datagram ++ RecvEvent.timeout :: rest)).2
          = some (Except.ok out) ∧
      out.length = datagrams.length ∧
      ∀ i : ℕ, out[i]? = (datagrams[i]?).map (fun d => decode (d.take 1024)) := by
  refine ⟨datagrams.map (fun d => decode (d.take 1024)), ?_, by simp, ?_⟩
  · simp [Receive_Multicast_Message, recv_loop_datagrams, recv_loop]
  · intro i
    simp

/-- C10: `recvfrom(1024)` delivers at most 1024 bytes per datagram, so a
datagram whose payload exceeds 1024 bytes contributes only its first
1024 bytes, decoded, to the result list: the payload is silently
truncated and does not round-trip verbatim. -/
theorem receive_truncates_to_1024_bytes (recv_sock : RecvSocket)
    (timeout : ℚ) (decode : List ℕ → String) (payload : List ℕ)
    (rest : List RecvEvent) (h : 1024 < payload.length) :
    (Receive_Multicast_Message recv_sock timeout decode
        (RecvEvent.datagram payload :: RecvEvent.timeout :: rest)).2
      = some (Except.ok [decode (payload.take 1024)]) ∧
    (payload.take 1024).length = 1024 ∧
    payload.take 1024 ≠ payload := by
  refine ⟨?_, ?_, ?_⟩
  · simp [Receive_Multicast_Message, recv_loop]
  · simp only [List.length_take]
    omega
  · intro hEq
    have hlen := congrArg List.length hEq
    simp only [List.length_take] at hlen
    omega

/-- Witness for C10: a 1025-byte datagram is truncated to its first
1024 bytes. -/
theorem receive_truncates_to_1024_bytes_witness :
    1024 < (List.replicate 1025 (0:ℕ)).length ∧
    ((Receive_Multicast_Message ⟨none⟩ 5 (fun l => toString l.length)
        (RecvEvent.datagram (List.replicate 1025 (0:ℕ)) :: RecvEvent.timeout :: [])).2
      = some (Except.ok
          [(fun l : List ℕ => toString l.length) ((List.replicate 1025 (0:ℕ)).take 1024)]) ∧
    ((List.replicate 1025 (0:ℕ)).take 1024).length = 1024 ∧
    (List.replicate 1025 (0:ℕ)).take 1024 ≠ List.replicate 1025 (0:ℕ)) :=
  ⟨by simp only [List.length_replicate]; decide,
    receive_truncates_to_1024_bytes ⟨none⟩ 5 (fun l => toString l.length)
      (List.replicate 1025 (0:ℕ)) []
      (by simp only [List.length_replicate]; decide)⟩

/-! ## Claims about the socket factory, assertions, ping, frame counter -/

/-- The claim of C5 fails on the code at `ttl = 200`: `200` lies in the
range 0–255 that the claim says is accepted, yet `struct.pack('b', 200)`
raises `struct.error`, so `Create_Send_Socket 200` fails rather than
setting the TTL option. -/
theorem create_send_socket_rejects_200 :
    Create_Send_Socket 200 =
      Except.error "byte format requires -128 <= number <= 127" ∧
    (0 : ℤ) ≤ 200 ∧ (200 : ℤ) ≤ 255 := by
  refine ⟨?_, by decide, by decide⟩
  norm_num [Create_Send_Socket, struct_pack_signed_byte]

/-- C5 (amended): `Create_Send_Socket ttl` succeeds, setting the IP
multicast TTL option to the packed byte, exactly when `ttl` is in the
signed-byte range `-128..127`; for every `ttl` outside that range
(including 128–255 and e.g. 300) it fails with `struct.error` at the
packing step — before the OS option-set call — rather than silently
truncating the value. -/
theorem create_send_socket_signed_byte_range (ttl : ℤ) :
    (-128 ≤ ttl ∧ ttl ≤ 127 →
      Create_Send_Socket ttl = Except.ok { ttlOption := some [ttl] }) ∧
    (ttl < -128 ∨ 127 < ttl →
      Create_Send_Socket ttl =
        Except.error "byte format requires -128 <= number <= 127") := by
  constructor
  · intro h
    simp [Create_Send_Socket, struct_pack_signed_byte, h.1, h.2]
  · intro h
    have h' : ¬(-128 ≤ ttl ∧ ttl ≤ 127) := by
      rcases h with h | h
      · exact fun hc => absurd hc.1 (not_le.mpr h)
      · exact fun hc => absurd hc.2 (not_le.mpr h)
    simp [Create_Send_Socket, struct_pack_signed_byte, h']

/-- Witness for C5: `ttl = 5` is accepted and sets the option;
`ttl = 300` fails at the packing step. -/
theorem create_send_socket_signed_byte_range_witness :
    Create_Send_Socket 5 = Except.ok { ttlOption := some [5] } ∧
    Create_Send_Socket 300 =
      Except.error "byte format requires -128 <= number <= 127" :=
  ⟨(create_send_socket_signed_byte_range 5).1 (by decide),
   (create_send_socket_signed_byte_range 300).2 (by decide)⟩

/-- C6: `Should_Messages_Be_Equal sent_msg recv_msg` returns normally iff
`sent_msg` is a member of `recv_msg`; otherwise it raises an
`AssertionError` whose message contains the missing payload `sent_msg`
itself. -/
theorem should_messages_be_equal_spec (sent_msg : String) (recv_msg : List String) :
    (Should_Messages_Be_Equal sent_msg recv_msg = Except.ok () ↔ sent_msg ∈ recv_msg) ∧
    (sent_msg ∉ recv_msg →
      ∃ msg, Should_Messages_Be_Equal sent_msg recv_msg = Except.error msg ∧
        sent_msg.data <:+: msg.data) := by
  constructor
  · constructor
    · intro h
      by_contra hmem
      simp [Should_Messages_Be_Equal, hmem] at h
    · intro h
      simp [Should_Messages_Be_Equal, h]
  · intro h
    refine ⟨"'" ++ sent_msg ++ "' is not found in the received message",
      by simp [Should_Messages_Be_Equal, h], ?_⟩
    refine ⟨"'".data, "' is not found in the received message".data, ?_⟩
    simp [String.data_append]

/-- Witness for C6: `"missing"` is absent from `["ping"]`, and the raised
message contains `"missing"`. -/
theorem should_messages_be_equal_spec_witness :
    ("missing" ∉ ["ping"]) ∧
    (∃ msg, Should_Messages_Be_Equal "missing" ["ping"] = Except.error msg ∧
      "missing".data <:+: msg.data) :=
  ⟨by decide,
   (should_messages_be_equal_spec "missing" ["ping"]).2 (by decide)⟩

/-- C7: `Should_Messages_Not_Be_Equal` is the logical negation of
`Should_Messages_Be_Equal`: it passes iff `sent_msg` is absent from
`recv_msg`, and it raises exactly when `Should_Messages_Be_Equal` passes
(both are pure functions of their arguments). -/
theorem should_messages_not_be_equal_negation (sent_msg : String) (recv_msg : List String) :
    (Should_Messages_Not_Be_Equal sent_msg recv_msg = Except.ok () ↔ sent_msg ∉ recv_msg) ∧
    ((∃ e, Should_Messages_Not_Be_Equal sent_msg recv_msg = Except.error e) ↔
      Should_Messages_Be_Equal sent_msg recv_msg = Except.ok ()) := by
  by_cases h : sent_msg ∈ recv_msg
  · refine ⟨?_, ?_⟩
    · simp [Should_Messages_Not_Be_Equal, h]
    · simp [Should_Messages_Not_Be_Equal, Should_Messages_Be_Equal, h]
  · refine ⟨?_, ?_⟩
    · simp [Should_Messages_Not_Be_Equal, h]
    · simp [Should_Messages_Not_Be_Equal, Should_Messages_Be_Equal, h]

/-- The claim of C9 fails on the code: when the probe raises `NameError`,
`ping` returns the string `f"module {e}"`, not a boolean, even on a
well-formed dotted-quad host. -/
theorem ping_nameerror_returns_string :
    ping "10.0.0.1" (ProbeOutcome.nameError "e") = PingResult.str "module e" ∧
    (ping "10.0.0.1" (ProbeOutcome.nameError "e")).isBool = false := by
  constructor
  · rfl
  · rfl

/-- C9 (amended): whenever the probe returns a value or raises
`TypeError` or `OSError`, `ping` returns a boolean: `True` exactly when
the host string has three dots and the probe result was truthy, and
`False` in every other such case (malformed address, falsy probe result,
`TypeError`, `OSError` are all downgraded to `False`, not propagated).
Only a `NameError` from the probe escapes this: it is caught but a string
is returned instead of a boolean. -/
theorem ping_boolean_contract (remote_host : String) (truthy : Bool) :
    ping remote_host (ProbeOutcome.value truthy) =
      PingResult.bool (decide (remote_host.data.count (Char.ofNat 46) = 3) && truthy) ∧
    ping remote_host ProbeOutcome.typeError = PingResult.bool false ∧
    ping remote_host ProbeOutcome.osError = PingResult.bool false := by
  by_cases h : remote_host.data.count (Char.ofNat 46) = 3
  · refine ⟨?_, ?_, ?_⟩ <;> cases truthy <;> simp [ping, h]
  · refine ⟨?_, ?_, ?_⟩ <;> cases truthy <;> simp [ping, h]

/-- C8: at the failing input (absent video file), `Get_Frame_count` raises
`NameError` — the f-string in the `raise` statement references the unbound
name `file` — and not a `FileNotFoundError` naming the absent file, as
its own `raise FileNotFoundError(...)` statement and docstring intend. -/
theorem get_frame_count_missing_file_raises_nameerror :
    Get_Frame_count false [] = Except.error (PyExc.nameError "file") ∧
    ∀ msg, Get_Frame_count false [] ≠ Except.error (PyExc.fileNotFound msg) := by
  constructor
  · rfl
  · intro msg h
    simp [Get_Frame_count] at h

end MulticastLibrary
